import Mathlib

/-! URL opener shim (`src/wasm_open_url.cpp`)

The translation unit holds two functions:

* `molt_open_url_js`, an `EM_JS` adapter whose body is JavaScript: it guards against a
  falsy pointer, decodes the buffer with `UTF8ToString`, guards against a falsy string and
  then calls `window.open(parsed, "_blank")`;
* `molt_open_url`, the C-linkage wrapper whose body is the single call
  `molt_open_url_js(url)`.

The embedding is state passing over a trace of observable events.  What the runtime's
`UTF8ToString` returns for a pointer is not part of the translation unit, so it is a
parameter (`Host`).  JavaScript strings are represented by `String`; the only operation
the source applies to one is the truthiness test, which is `false` exactly for `""`.
-/

namespace WasmOpenUrl

/-! ## Data model -/

/-- A `const char*` as the JavaScript side receives it: a linear-memory address, `0` being
the null pointer. -/
abbrev Ptr := Nat

/-- The null pointer. -/
def nullPtr : Ptr := 0

/-- The part of the embedding environment the adapter reads: the string the runtime's
`UTF8ToString` yields for the NUL-terminated buffer at each address. -/
structure Host where
  UTF8ToString : Ptr → String

/-- Observable events, in program order. -/
inductive Event where
  /-- the body of `molt_open_url_js` is entered with this argument -/
  | enter (url : Ptr)
  /-- the call `UTF8ToString(ptr)` -/
  | UTF8ToString (ptr : Ptr)
  /-- the call `window.open(args...)` with its full argument list -/
  | windowOpen (args : List String)
  deriving DecidableEq, Repr

/-- The events so far, oldest first. -/
abbrev Trace := List Event

/-! ## JavaScript truthiness, as used by the two guards -/

/-- JavaScript `!url` for the numeric pointer argument: `true` exactly for `0`. -/
def notNumber (n : Nat) : Bool := n == 0

/-- JavaScript `!parsed` for a string: `true` exactly for the empty string. -/
def notString (s : String) : Bool := s == ""

/-! ## The two functions of the translation unit -/

/-- Lines 3-12, the `EM_JS` adapter:
```
if (!url) { return; }
const parsed = UTF8ToString(url);
if (!parsed) { return; }
window.open(parsed, "_blank");
```
-/
def molt_open_url_js (h : Host) (url : Ptr) (t : Trace) : Trace :=
  let t0 := t ++ [Event.enter url]
  if notNumber url then
    t0
  else
    let parsed := h.UTF8ToString url
    let t1 := t0 ++ [Event.UTF8ToString url]
    if notString parsed then
      t1
    else
      t1 ++ [Event.windowOpen [parsed, "_blank"]]

/-- Lines 14-16, the C-linkage wrapper: `molt_open_url_js(url);`. -/
def molt_open_url (h : Host) (url : Ptr) (t : Trace) : Trace :=
  molt_open_url_js h url t

/-! ## Observations on traces -/

/-- The argument lists of the `window.open` requests of a trace, in order. -/
def openRequests : Trace → List (List String)
  | [] => []
  | Event.windowOpen args :: rest => args :: openRequests rest
  | _ :: rest => openRequests rest

/-- The pointers handed to `UTF8ToString` in a trace, in order. -/
def decodeCalls : Trace → List Ptr
  | [] => []
  | Event.UTF8ToString p :: rest => p :: decodeCalls rest
  | _ :: rest => decodeCalls rest

/-- The arguments with which the adapter body was entered in a trace, in order. -/
def adapterCalls : Trace → List Ptr
  | [] => []
  | Event.enter p :: rest => p :: adapterCalls rest
  | _ :: rest => adapterCalls rest

/-- One invocation as a caller makes it: the memory contents at the time of the call, seen
through the decoder, and the pointer argument. -/
structure Invocation where
  host : Host
  url : Ptr

/-- A caller invoking `molt_open_url` once per element, in order. -/
def callAll : List Invocation → Trace → Trace
  | [], t => t
  | c :: rest, t => callAll rest (molt_open_url c.host c.url t)

/-- The events one invocation produces when run on its own, from the empty trace. -/
def alone (c : Invocation) : Trace := molt_open_url c.host c.url []

/-! ## The declarations of the translation unit -/

/-- The C types that occur in the two signatures. -/
inductive CType where
  /-- the return type `void` -/
  | void
  /-- the parameter type `const char*` -/
  | constCharPtr
  deriving DecidableEq, Repr

/-- Language linkage of a function definition. -/
inductive Linkage where
  /-- C language linkage: the link-level symbol is the identifier itself -/
  | c
  /-- C++ language linkage: the link-level symbol is a mangled form of the signature -/
  | cxx
  deriving DecidableEq, Repr

/-- How a function of the translation unit is introduced. -/
inductive DeclKind where
  /-- through `EM_JS(ret, name, params, body)`: the body is JavaScript run by the host -/
  | emJs
  /-- a function definition with a C++ body, compiled into the module, with its language
  linkage -/
  | definition (linkage : Linkage)
  deriving DecidableEq, Repr

/-- One function declaration as written in the source. -/
structure FunctionDecl where
  kind : DeclKind
  ret : CType
  name : String
  params : List CType
  deriving DecidableEq, Repr

/-- The declarations of `wasm_open_url.cpp` in source order: line 3,
`EM_JS(void, molt_open_url_js, (const char* url), ...)`, and line 14, the C-linkage
definition `void molt_open_url(const char* url)`. -/
def translationUnit : List FunctionDecl :=
  [ { kind := DeclKind.emJs, ret := CType.void,
      name := "molt_open_url_js", params := [CType.constCharPtr] },
    { kind := DeclKind.definition Linkage.c, ret := CType.void,
      name := "molt_open_url", params := [CType.constCharPtr] } ]

/-- Whether a declaration is a function definition of the module. -/
def isDefinition (d : FunctionDecl) : Bool :=
  match d.kind with
  | DeclKind.definition _ => true
  | DeclKind.emJs => false

/-- The boundary functions: the functions the module itself defines, which other compiled
units or the host runtime call by their link-level symbol. -/
def boundaryFunctions : List FunctionDecl :=
  translationUnit.filter isDefinition

/-! ## Sample environment used to instantiate the theorems -/

/-- Sample linear memory, addresses from `0`: eight unused bytes, then `not a url`, `0`
and an empty string, each NUL-terminated, at addresses `8`, `18` and `20`. -/
def sampleMemory : List Nat :=
  [0, 0, 0, 0, 0, 0, 0, 0,
   110, 111, 116, 32, 97, 32, 117, 114, 108, 0,
   48, 0,
   0]

/-- A sample decoder over a byte list: the bytes from `p` up to the first NUL, read as
ASCII; the null pointer decodes to the empty string. -/
def sampleHost (mem : List Nat) : Host where
  UTF8ToString := fun p =>
    if p = 0 then "" else String.mk (((mem.drop p).takeWhile (fun b => b != 0)).map Char.ofNat)

/-! ## Helper lemmas -/

theorem openRequests_append (a b : Trace) :
    openRequests (a ++ b) = openRequests a ++ openRequests b := by
  induction a with
  | nil => rfl
  | cons e rest ih => cases e <;> simp [openRequests, ih]

theorem decodeCalls_append (a b : Trace) :
    decodeCalls (a ++ b) = decodeCalls a ++ decodeCalls b := by
  induction a with
  | nil => rfl
  | cons e rest ih => cases e <;> simp [decodeCalls, ih]

theorem adapterCalls_append (a b : Trace) :
    adapterCalls (a ++ b) = adapterCalls a ++ adapterCalls b := by
  induction a with
  | nil => rfl
  | cons e rest ih => cases e <;> simp [adapterCalls, ih]

theorem notNumber_eq_true_iff (n : Nat) : notNumber n = true ↔ n = 0 := by
  simp [notNumber]

theorem notString_eq_true_iff (s : String) : notString s = true ↔ s = "" := by
  simp [notString]

/-- The adapter on a null pointer: entered, then the first guard returns. -/
theorem molt_open_url_js_null (h : Host) (t : Trace) :
    molt_open_url_js h nullPtr t = t ++ [Event.enter nullPtr] := by
  simp [molt_open_url_js, notNumber, nullPtr]

/-- The adapter on a non-null pointer whose buffer decodes to the empty string: entered,
decoded, then the second guard returns. -/
theorem molt_open_url_js_empty (h : Host) (url : Ptr) (t : Trace)
    (hnull : url ≠ nullPtr) (hempty : h.UTF8ToString url = "") :
    molt_open_url_js h url t = t ++ [Event.enter url, Event.UTF8ToString url] := by
  have h0 : notNumber url = false := by
    cases hb : notNumber url with
    | false => rfl
    | true => exact absurd ((notNumber_eq_true_iff url).1 hb) hnull
  simp [molt_open_url_js, h0, hempty, notString]

/-- The adapter on a non-null pointer whose buffer decodes to a non-empty string: entered,
decoded, and one `window.open` call. -/
theorem molt_open_url_js_open (h : Host) (url : Ptr) (t : Trace)
    (hnull : url ≠ nullPtr) (hne : h.UTF8ToString url ≠ "") :
    molt_open_url_js h url t =
      t ++ [Event.enter url, Event.UTF8ToString url,
            Event.windowOpen [h.UTF8ToString url, "_blank"]] := by
  have h0 : notNumber url = false := by
    cases hb : notNumber url with
    | false => rfl
    | true => exact absurd ((notNumber_eq_true_iff url).1 hb) hnull
  have h1 : notString (h.UTF8ToString url) = false := by
    cases hb : notString (h.UTF8ToString url) with
    | false => rfl
    | true => exact absurd ((notString_eq_true_iff _).1 hb) hne
  simp [molt_open_url_js, h0, h1]

/-- The adapter only appends: its result on `t` is `t` followed by its result on the empty
trace. -/
theorem molt_open_url_js_frame (h : Host) (url : Ptr) (t : Trace) :
    molt_open_url_js h url t = t ++ molt_open_url_js h url [] := by
  by_cases hnull : url = nullPtr
  · subst hnull
    simp [molt_open_url_js_null]
  · by_cases hempty : h.UTF8ToString url = ""
    · simp [molt_open_url_js_empty h url _ hnull hempty]
    · simp [molt_open_url_js_open h url _ hnull hempty]

/-- The wrapper only appends, as the adapter does. -/
theorem molt_open_url_frame (h : Host) (url : Ptr) (t : Trace) :
    molt_open_url h url t = t ++ molt_open_url h url [] := by
  unfold molt_open_url
  exact molt_open_url_js_frame h url t

/-- A sequence of calls appends, in order, what each call produces on its own. -/
theorem callAll_eq_append (calls : List Invocation) (t : Trace) :
    callAll calls t = t ++ calls.flatMap alone := by
  induction calls generalizing t with
  | nil => simp [callAll]
  | cons c rest ih =>
    rw [callAll, ih, molt_open_url_frame c.host c.url t, List.flatMap_cons, alone,
      List.append_assoc]

/-- The adapter is entered once per call, with the argument it was given. -/
theorem adapterCalls_molt_open_url_js (h : Host) (url : Ptr) (t : Trace) :
    adapterCalls (molt_open_url_js h url t) = adapterCalls t ++ [url] := by
  by_cases hnull : url = nullPtr
  · subst hnull
    rw [molt_open_url_js_null, adapterCalls_append]
    simp [adapterCalls]
  · by_cases hempty : h.UTF8ToString url = ""
    · rw [molt_open_url_js_empty h url _ hnull hempty, adapterCalls_append]
      simp [adapterCalls]
    · rw [molt_open_url_js_open h url _ hnull hempty, adapterCalls_append]
      simp [adapterCalls]

/-! ## The claims -/

/-- C1: for a non-null `url` whose decoded text is non-empty, one call of `molt_open_url`
adds exactly one `window.open` request to those already made, and the first (URL) argument
of that request is the decoded string itself, whatever its content. -/
theorem C1_open_exactly_once_verbatim (h : Host) (url : Ptr) (t : Trace)
    (hnull : url ≠ nullPtr) (hne : h.UTF8ToString url ≠ "") :
    (openRequests (molt_open_url h url t)).map List.head? =
      (openRequests t).map List.head? ++ [some (h.UTF8ToString url)] := by
  unfold molt_open_url
  rw [molt_open_url_js_open h url t hnull hne, openRequests_append]
  simp [openRequests]

/-- Witness for C1: the malformed text `not a url` (address 8 of the sample memory) and the
text `0` (address 18) each give one request carrying that text. -/
theorem C1_open_exactly_once_verbatim_witness :
    ((8 : Ptr) ≠ nullPtr ∧ (sampleHost sampleMemory).UTF8ToString 8 ≠ "" ∧
      (openRequests (molt_open_url (sampleHost sampleMemory) 8 [])).map List.head? =
        [some "not a url"]) ∧
    ((18 : Ptr) ≠ nullPtr ∧ (sampleHost sampleMemory).UTF8ToString 18 ≠ "" ∧
      (openRequests (molt_open_url (sampleHost sampleMemory) 18 [])).map List.head? =
        [some "0"]) :=
  ⟨⟨by decide, by decide,
    C1_open_exactly_once_verbatim (sampleHost sampleMemory) 8 [] (by decide) (by decide)⟩,
   ⟨by decide, by decide,
    C1_open_exactly_once_verbatim (sampleHost sampleMemory) 18 [] (by decide) (by decide)⟩⟩

/-- C2: for the null pointer `molt_open_url` returns having added only the entry of the
adapter to the trace: no `window.open` request and no `UTF8ToString` call is made. -/
theorem C2_null_no_request_no_decode (h : Host) (t : Trace) :
    molt_open_url h nullPtr t = t ++ [Event.enter nullPtr] ∧
    openRequests (molt_open_url h nullPtr t) = openRequests t ∧
    decodeCalls (molt_open_url h nullPtr t) = decodeCalls t := by
  unfold molt_open_url
  rw [molt_open_url_js_null, openRequests_append, decodeCalls_append]
  simp [openRequests, decodeCalls]

/-- C3: for a non-null `url` whose buffer decodes to the empty string `molt_open_url`
returns after the decode, having made no `window.open` request. -/
theorem C3_empty_no_request (h : Host) (url : Ptr) (t : Trace)
    (hnull : url ≠ nullPtr) (hempty : h.UTF8ToString url = "") :
    molt_open_url h url t = t ++ [Event.enter url, Event.UTF8ToString url] ∧
    openRequests (molt_open_url h url t) = openRequests t := by
  unfold molt_open_url
  rw [molt_open_url_js_empty h url t hnull hempty, openRequests_append]
  simp [openRequests]

/-- Witness for C3: address 20 of the sample memory holds a NUL byte at once. -/
theorem C3_empty_no_request_witness :
    (20 : Ptr) ≠ nullPtr ∧ (sampleHost sampleMemory).UTF8ToString 20 = "" ∧
    molt_open_url (sampleHost sampleMemory) 20 [] = [Event.enter 20, Event.UTF8ToString 20] ∧
    openRequests (molt_open_url (sampleHost sampleMemory) 20 []) = [] :=
  ⟨by decide, by decide,
   C3_empty_no_request (sampleHost sampleMemory) 20 [] (by decide) (by decide)⟩

/-- C4: every `window.open` request among the events one call of `molt_open_url` adds to
the trace has exactly two arguments, the decoded URL and the fixed target `_blank`. -/
theorem C4_target_blank (h : Host) (url : Ptr) (t : Trace) (args : List String)
    (hmem : args ∈ openRequests ((molt_open_url h url t).drop t.length)) :
    args = [h.UTF8ToString url, "_blank"] := by
  rw [molt_open_url_frame h url t, List.drop_left] at hmem
  unfold molt_open_url at hmem
  by_cases hnull : url = nullPtr
  · subst hnull
    rw [molt_open_url_js_null] at hmem
    simp [openRequests] at hmem
  · by_cases hempty : h.UTF8ToString url = ""
    · rw [molt_open_url_js_empty h url _ hnull hempty] at hmem
      simp [openRequests] at hmem
    · rw [molt_open_url_js_open h url _ hnull hempty] at hmem
      simp [openRequests] at hmem
      exact hmem

/-- Witness for C4: the request issued for `not a url` after an earlier, unrelated event. -/
theorem C4_target_blank_witness :
    ["not a url", "_blank"] ∈
      openRequests
        ((molt_open_url (sampleHost sampleMemory) 8 [Event.enter 0]).drop
          [Event.enter 0].length) ∧
    ["not a url", "_blank"] = [(sampleHost sampleMemory).UTF8ToString 8, "_blank"] :=
  ⟨by decide,
   C4_target_blank (sampleHost sampleMemory) 8 [Event.enter 0] ["not a url", "_blank"]
     (by decide)⟩

/-- C5: calls are independent and not deduplicated. The trace after calling
`molt_open_url` on a sequence of inputs in order is the earlier trace followed by what
each call produces on its own; and two calls with the same non-null pointer to a non-empty
text give two `window.open` requests with that text. -/
theorem C5_calls_independent :
    (∀ (calls : List Invocation) (t : Trace), callAll calls t = t ++ calls.flatMap alone) ∧
    (∀ (h : Host) (url : Ptr), url ≠ nullPtr → h.UTF8ToString url ≠ "" →
      openRequests (callAll [Invocation.mk h url, Invocation.mk h url] []) =
        [[h.UTF8ToString url, "_blank"], [h.UTF8ToString url, "_blank"]]) := by
  refine ⟨callAll_eq_append, ?_⟩
  intro h url hnull hne
  simp [callAll, molt_open_url, molt_open_url_js_open h url _ hnull hne, openRequests]

/-- Witness for C5: a three-call sequence over the sample memory, and the text `not a url`
opened twice. -/
theorem C5_calls_independent_witness :
    callAll [Invocation.mk (sampleHost sampleMemory) 18, Invocation.mk (sampleHost sampleMemory) 0,
        Invocation.mk (sampleHost sampleMemory) 18] [Event.enter 0] =
      [Event.enter 0] ++
        [Invocation.mk (sampleHost sampleMemory) 18, Invocation.mk (sampleHost sampleMemory) 0,
          Invocation.mk (sampleHost sampleMemory) 18].flatMap alone ∧
    ((8 : Ptr) ≠ nullPtr ∧ (sampleHost sampleMemory).UTF8ToString 8 ≠ "" ∧
      openRequests (callAll [Invocation.mk (sampleHost sampleMemory) 8,
          Invocation.mk (sampleHost sampleMemory) 8] []) =
        [["not a url", "_blank"], ["not a url", "_blank"]]) :=
  ⟨C5_calls_independent.1 _ _,
   by decide, by decide,
   C5_calls_independent.2 (sampleHost sampleMemory) 8 (by decide) (by decide)⟩

/-- C6, as stated, fails: the one boundary function is not named `open_url`, and no
declaration of the translation unit has that name. -/
theorem C6_symbol_not_open_url :
    ¬ (boundaryFunctions.map FunctionDecl.name = ["open_url"]) ∧
    "open_url" ∉ translationUnit.map FunctionDecl.name := by
  decide

/-- C6, amended: the module defines exactly one boundary function; it has C language
linkage, so its symbol is its identifier, `molt_open_url`; it takes one `const char*` and
returns `void`. -/
theorem C6_boundary_function :
    boundaryFunctions =
      [ { kind := DeclKind.definition Linkage.c, ret := CType.void,
          name := "molt_open_url", params := [CType.constCharPtr] } ] := by
  decide

/-- C7: the wrapper adds nothing to the adapter. For every input, null included, the
trace of `molt_open_url` is that of `molt_open_url_js` on the same pointer, the adapter is
entered exactly once with that pointer, and the `window.open` requests agree. -/
theorem C7_wrapper_is_adapter (h : Host) (url : Ptr) (t : Trace) :
    molt_open_url h url t = molt_open_url_js h url t ∧
    adapterCalls (molt_open_url h url t) = adapterCalls t ++ [url] ∧
    openRequests (molt_open_url h url t) = openRequests (molt_open_url_js h url t) := by
  refine ⟨rfl, ?_, rfl⟩
  unfold molt_open_url
  exact adapterCalls_molt_open_url_js h url t

end WasmOpenUrl
